import Mathlib

/-!
Shallow embedding of the session-control core of the `nexus` gateway
(`src/gateway/src`): the Redis-backed CSRF state manager and JWT
revocation registry (`redis/mod.rs`), the JWT issue/verify pair
(`api/state/mod.rs`), the `AuthUser` request extractor and the
login/logout/callback handlers (`api/controllers/auth.rs`), and the
route table (`api/endpoint/mod.rs`).

Asynchronous store calls are modelled as pure state transformers over an
explicit key-space value together with an explicit `now` clock; a store
call that can fail over the network takes a `fail` flag and returns
`Except StoreError`.  Machine integers (`u32` timestamps) are `Nat` with
an explicit `% 2 ^ 32` where the source can overflow.
-/

namespace Nexus

/-- JWT claims (`api/models/auth.rs`, `struct Claims`).
`exp` is a `u32` Unix timestamp in seconds; `jti` is the unique token id
used for revocation. -/
structure Claims where
  sub : String
  email : String
  name : String
  exp : Nat
  jti : String
deriving DecidableEq, Repr

/-- Error raised by a failed Redis network call (`anyhow::Error` in the
source, always produced with a `context` string by `redis/mod.rs`). -/
inductive StoreError where
  | connection
deriving DecidableEq, Repr

/-- The Redis key space: a list of `(key, absolute expiry deadline)` pairs.
Every write in the source is `SET key 1 EX ttl`, so the stored value is
always `1u8` and only the key and its deadline matter.  A key set at time
`t` with ttl `d` is live exactly for `t ≤ now < t + d`. -/
structure RedisState where
  entries : List (String × Nat)
deriving DecidableEq, Repr

/-- Whether `k` is a live (non-expired) key at time `now`. -/
def RedisState.live (s : RedisState) (now : Nat) (k : String) : Bool :=
  s.entries.any (fun e => e.1 == k && decide (now < e.2))

/-- `SET k 1 EX ttl` at time `now`: replaces any previous entry for `k`
with one whose deadline is `now + ttl`. -/
def RedisState.setEx (s : RedisState) (k : String) (now ttl : Nat) : RedisState :=
  ⟨(k, now + ttl) :: s.entries.filter (fun e => !(e.1 == k))⟩

/-- `DEL k` at time `now`: removes `k` and returns how many (live) keys
were removed; Redis counts an already-expired key as absent. -/
def RedisState.del (s : RedisState) (now : Nat) (k : String) : Nat × RedisState :=
  ((if s.live now k then 1 else 0), ⟨s.entries.filter (fun e => !(e.1 == k))⟩)

/-- `RedisClient::store_oauth_state` (`redis/mod.rs`): `SET state 1 EX ttl`. -/
def RedisClient.store_oauth_state (fail : Bool) (s : RedisState) (now : Nat)
    (state : String) (ttl_secs : Nat) : Except StoreError RedisState :=
  if fail then .error .connection else .ok (s.setEx state now ttl_secs)

/-- `RedisClient::consume_oauth_state` (`redis/mod.rs`): `DEL state`,
returning `deleted > 0`. -/
def RedisClient.consume_oauth_state (fail : Bool) (s : RedisState) (now : Nat)
    (state : String) : Except StoreError (Bool × RedisState) :=
  if fail then .error .connection
  else
    let d := s.del now state
    .ok (decide (0 < d.1), d.2)

/-- The deny-list key `format!("jwt:revoked:{jti}")` (`redis/mod.rs`). -/
def revokedKey (jti : String) : String := "jwt:revoked:" ++ jti

/-- `RedisClient::revoke_jwt` (`redis/mod.rs`): `SET jwt:revoked:{jti} 1 EX ttl`. -/
def RedisClient.revoke_jwt (fail : Bool) (s : RedisState) (now : Nat)
    (jti : String) (ttl_secs : Nat) : Except StoreError RedisState :=
  if fail then .error .connection else .ok (s.setEx (revokedKey jti) now ttl_secs)

/-- `RedisClient::is_jwt_revoked` (`redis/mod.rs`): `EXISTS jwt:revoked:{jti}`. -/
def RedisClient.is_jwt_revoked (fail : Bool) (s : RedisState) (now : Nat)
    (jti : String) : Except StoreError Bool :=
  if fail then .error .connection else .ok (s.live now (revokedKey jti))

/-- Model of an encoded JWT string: either a well-formed compact token
recording the claims it carries and the secret it was signed with, or a
malformed/tampered string.  `jsonwebtoken::encode` with
`Header::default()` (HS256) produces `signed claims secret`; any byte
alteration of header, payload or signature yields a string that no longer
verifies under `secret`, collapsed here into `malformed` (or `signed`
with a different secret). -/
inductive Token where
  | signed (claims : Claims) (secret : String)
  | malformed
deriving DecidableEq, Repr

/-- Error kinds of `jsonwebtoken::errors::ErrorKind` relevant to `decode`. -/
inductive JwtError where
  | invalidSignature
  | expiredSignature
  | malformedToken
deriving DecidableEq, Repr

/-- `jsonwebtoken::Validation::default()` validates `exp` with a default
`leeway` of 60 seconds (jsonwebtoken ≥ 8: `Validation::new` sets
`leeway: 60`). -/
def jwtDefaultLeeway : Nat := 60

/-- Models `jsonwebtoken::decode::<Claims>(token, key(secret),
&Validation::default())`: checks the HS256 signature against `secret`,
then rejects with `ExpiredSignature` iff `exp < now - leeway`
(`u64` arithmetic; `Nat` truncated subtraction matches for `now ≥ 60`). -/
def jwtDecode (tok : Token) (secret : String) (now : Nat) : Except JwtError Claims :=
  match tok with
  | .malformed => .error .malformedToken
  | .signed c s =>
    if s ≠ secret then .error .invalidSignature
    else if c.exp < now - jwtDefaultLeeway then .error .expiredSignature
    else .ok c

/-- `u32` modulus for the `exp` timestamp arithmetic. -/
def u32Mod : Nat := 2 ^ 32

/-- Models `uuid::Uuid::new_v4().to_string()` as an abstract fresh-id
source: a deterministic injective stream of distinct opaque strings
indexed by a counter, standing in for random ids whose collision
probability is cryptographically negligible. -/
structure UuidGen where
  counter : Nat
deriving DecidableEq, Repr

/-- The `counter`-th fresh id of the stream. -/
def uuidString (c : Nat) : String := String.mk (List.replicate (c + 1) 'u')

/-- Draw the next fresh id. -/
def UuidGen.next (g : UuidGen) : String × UuidGen :=
  (uuidString g.counter, ⟨g.counter + 1⟩)

/-- `ApiState::decode_jwt` (`api/state/mod.rs`): `jsonwebtoken::decode`
with the process `jwt_secret` and `Validation::default()`. -/
def ApiState.decode_jwt (secret : String) (tok : Token) (now : Nat) :
    Except JwtError Claims :=
  jwtDecode tok secret now

/-- `ApiState::issue_jwt` (`api/state/mod.rs`): builds `Claims` with
`exp = now_sec() + expires_in` (`u32` addition) and a fresh
`Uuid::new_v4` `jti`, then signs them with the process secret. -/
def ApiState.issue_jwt (secret sub email name : String) (now expires_in : Nat)
    (g : UuidGen) : Token × UuidGen :=
  let exp := (now + expires_in) % u32Mod
  let j := g.next
  (Token.signed { sub := sub, email := email, name := name, exp := exp, jti := j.1 } secret,
    j.2)

/-- `ApiState::revoke_jwt` (`api/state/mod.rs`): `remaining =
claims.exp.saturating_sub(now)`; a no-op when `remaining == 0`, otherwise
a deny-list write with ttl `remaining`. -/
def ApiState.revoke_jwt (fail : Bool) (s : RedisState) (now : Nat)
    (claims : Claims) : Except StoreError RedisState :=
  let remaining := claims.exp - now
  if remaining = 0 then .ok s
  else RedisClient.revoke_jwt fail s now claims.jti remaining

/-- `ApiState::is_jwt_revoked` (`api/state/mod.rs`): delegates to the
Redis client. -/
def ApiState.is_jwt_revoked (fail : Bool) (s : RedisState) (now : Nat)
    (jti : String) : Except StoreError Bool :=
  RedisClient.is_jwt_revoked fail s now jti

/-- `ApiState::consume_oauth_state` (`api/state/mod.rs`): delegates to the
Redis client. -/
def ApiState.consume_oauth_state (fail : Bool) (s : RedisState) (now : Nat)
    (state : String) : Except StoreError (Bool × RedisState) :=
  RedisClient.consume_oauth_state fail s now state

/-- The `Authorization` header of an inbound request, as seen by the
extractor after `get(AUTHORIZATION)`, `to_str` and
`v.strip_prefix("Bearer ")`: absent/non-UTF-8, present without the
`Bearer ` marker, or a bearer token. -/
inductive BearerHeader where
  | missing
  | notBearer
  | bearer (tok : Token)
deriving DecidableEq, Repr

/-- Outcome of `AuthUser::from_request_parts` (`api/controllers/auth.rs`):
each rejection carries the exact `(StatusCode, message)` pair the source
builds. -/
inductive AuthResult where
  | missingHeader
  | invalidToken
  | internalError
  | revoked
  | ok (claims : Claims)
deriving DecidableEq, Repr

/-- HTTP status code of an extractor outcome (`ok` means the request
proceeds to its handler). -/
def AuthResult.status : AuthResult → Nat
  | .missingHeader => 401
  | .invalidToken => 401
  | .internalError => 500
  | .revoked => 401
  | .ok _ => 200

/-- Rejection body of an extractor outcome, as written in the source. -/
def AuthResult.body : AuthResult → String
  | .missingHeader => "Missing authorization header"
  | .invalidToken => "Invalid token"
  | .internalError => "Internal server error"
  | .revoked => "Token has been revoked"
  | .ok _ => ""

/-- `AuthUser::from_request_parts` (`api/controllers/auth.rs`): extract
the bearer token, decode it, then check the revocation deny-list —
a store error on that check rejects with 500, a live deny-list entry
rejects with 401 `"Token has been revoked"`. -/
def AuthUser.from_request_parts (secret : String) (redisFail : Bool)
    (s : RedisState) (now : Nat) (h : BearerHeader) : AuthResult :=
  match h with
  | .missing => .missingHeader
  | .notBearer => .missingHeader
  | .bearer tok =>
    match ApiState.decode_jwt secret tok now with
    | .error _ => .invalidToken
    | .ok claims =>
      match ApiState.is_jwt_revoked redisFail s now claims.jti with
      | .error _ => .internalError
      | .ok true => .revoked
      | .ok false => .ok claims

/-- Responses produced by the auth handlers, keyed by status code and the
exact body/location the source writes. -/
inductive HttpResponse where
  | redirect (stateParam : String)
  | okToken (tok : Token)
  | noContent
  | badRequest (msg : String)
  | unauthorized (msg : String)
  | internalError (msg : String)
deriving DecidableEq, Repr

/-- HTTP status code of a handler response. -/
def HttpResponse.status : HttpResponse → Nat
  | .redirect _ => 303
  | .okToken _ => 200
  | .noContent => 204
  | .badRequest _ => 400
  | .unauthorized _ => 401
  | .internalError _ => 500

/-- `RedisConfig` (`redis/config.rs`): TTL in seconds for OAuth CSRF
state tokens. -/
structure RedisConfig where
  oauth_state_ttl : Nat
deriving DecidableEq, Repr

/-- `RedisConfig::default`: `oauth_state_ttl: 300`. -/
def RedisConfig.default : RedisConfig := ⟨300⟩

/-- `JwtConfig` (`api/config.rs`): token lifetime in seconds (`u32`). -/
structure JwtConfig where
  expires_in : Nat
deriving DecidableEq, Repr

/-- `JwtConfig::default`: `expires_in: 86400`. -/
def JwtConfig.default : JwtConfig := ⟨86400⟩

/-- `login_impl` (`api/controllers/auth.rs`): generate a fresh
`Uuid::new_v4` CSRF state, store it under its own value with the
configured TTL, and redirect to the provider with `state` set to it.
A store failure bubbles up (`?`) and the `login` wrapper turns it into a
500. -/
def login_impl (redisFail : Bool) (s : RedisState) (now ttl : Nat)
    (g : UuidGen) : (HttpResponse × RedisState) × UuidGen :=
  let j := g.next
  match RedisClient.store_oauth_state redisFail s now j.1 ttl with
  | .error _ => ((.internalError "Authentication failed", s), j.2)
  | .ok s' => ((.redirect j.1, s'), j.2)

/-- `logout` composed with its `AuthUser` extractor
(`api/controllers/auth.rs`): the extractor runs first and can reject with
401/500; on success `logout_impl` revokes the claims and responds 204
(a revocation store failure becomes 500 `"Logout failed"`). -/
def logout (secret : String) (redisFail : Bool) (s : RedisState) (now : Nat)
    (h : BearerHeader) : HttpResponse × RedisState :=
  match AuthUser.from_request_parts secret redisFail s now h with
  | .ok claims =>
    match ApiState.revoke_jwt redisFail s now claims with
    | .error _ => (.internalError "Logout failed", s)
    | .ok s' => (.noContent, s')
  | .missingHeader => (.unauthorized "Missing authorization header", s)
  | .invalidToken => (.unauthorized "Invalid token", s)
  | .internalError => (.internalError "Internal server error", s)
  | .revoked => (.unauthorized "Token has been revoked", s)

/-- `OAuthCallbackQuery` (`api/models/auth.rs`). -/
structure OAuthCallbackQuery where
  code : String
  state : String
deriving DecidableEq, Repr

/-- Outcomes of the external collaborators invoked by `callback_impl`,
in source order: the provider token exchange, the provider userinfo
fetch, and the database upsert.  `none` models the corresponding call
failing (HTTP error, bad status, deserialization error, DB error), which
`callback_impl` propagates with `?` and the `callback` wrapper turns
into a 500. -/
structure CallbackOracle where
  tokenExchange : Option String
  userinfo : Option (String × String × String)
  upsert : Option String
deriving DecidableEq, Repr

/-- Result of one `callback` invocation: the response, the store left
behind, and whether the provider code exchange was attempted. -/
structure CallbackOutcome where
  response : HttpResponse
  redis : RedisState
  exchangeAttempted : Bool
deriving DecidableEq, Repr

/-- `callback_impl` composed with its `callback` wrapper
(`api/controllers/auth.rs`): consume the CSRF state first — `false`
means 400 `"Invalid state parameter"` — then exchange the code, fetch
the user, upsert, and mint a JWT for `(db_user_id, email, name)`. -/
def callback (secret : String) (redisFail : Bool) (s : RedisState) (now : Nat)
    (params : OAuthCallbackQuery) (oracle : CallbackOracle) (expires_in : Nat)
    (g : UuidGen) : CallbackOutcome × UuidGen :=
  match ApiState.consume_oauth_state redisFail s now params.state with
  | .error _ => (⟨.internalError "Authentication failed", s, false⟩, g)
  | .ok (false, s') => (⟨.badRequest "Invalid state parameter", s', false⟩, g)
  | .ok (true, s') =>
    match oracle.tokenExchange with
    | none => (⟨.internalError "Authentication failed", s', true⟩, g)
    | some _ =>
      match oracle.userinfo with
      | none => (⟨.internalError "Authentication failed", s', true⟩, g)
      | some u =>
        match oracle.upsert with
        | none => (⟨.internalError "Authentication failed", s', true⟩, g)
        | some uid =>
          let t := ApiState.issue_jwt secret uid u.2.1 u.2.2 now expires_in g
          (⟨.okToken t.1, s', true⟩, t.2)

/-- `auth_router` (`api/endpoint/mod.rs`): `GET /` → `login`,
`GET /callback` → `callback`; no other route is registered. -/
def authRoutes : List (String × String) := [("GET", "/"), ("GET", "/callback")]

/-- `user_router` (`api/endpoint/mod.rs`): `GET /info`, `POST /devices`. -/
def userRoutes : List (String × String) := [("GET", "/info"), ("POST", "/devices")]

/-- `Router::nest`: prepend the mount point to each nested path. -/
def nestRoutes (pre : String) (rs : List (String × String)) :
    List (String × String) :=
  rs.map (fun r => (r.1, pre ++ r.2))

/-- The full route table built by `ApiEndpointBuilderCommon::build`
(`api/endpoint/mod.rs`): the healthcheck at `/`, then `auth_router`
nested under `/auth` and `user_router` nested under `/user`. -/
def gatewayRoutes : List (String × String) :=
  [("GET", "/")] ++ nestRoutes "/auth" authRoutes ++ nestRoutes "/user" userRoutes

/-- Models `uuid::Builder::from_random_bytes` on the 128 random bits of
`Uuid::new_v4`: force the version nibble (bits 76–79 of the big-endian
128-bit value, the high nibble of byte 6) to `4`. -/
def uuidSetVersion (u : Nat) : Nat :=
  (u / 2 ^ 80) * 2 ^ 80 + 4 * 2 ^ 76 + u % 2 ^ 76

/-- Models `uuid::Builder::from_random_bytes`: force the variant bits
(bits 62–63, the top two bits of byte 8) to `0b10`. -/
def uuidSetVariant (u : Nat) : Nat :=
  (u / 2 ^ 64) * 2 ^ 64 + 2 * 2 ^ 62 + u % 2 ^ 62

/-- `Uuid::new_v4` as a function of the 128 random bits drawn from the
OS RNG: the random value with version and variant bits overwritten. -/
def uuidV4ofBits (r : Nat) : Nat :=
  uuidSetVariant (uuidSetVersion (r % 2 ^ 128))

/-- `uuidV4ofBits` restricted to the 128-bit input/output space. -/
def uuidV4fin (r : Fin (2 ^ 128)) : Fin (2 ^ 128) :=
  ⟨uuidV4ofBits r.val, by
    simp only [uuidV4ofBits, uuidSetVersion, uuidSetVariant]
    omega⟩

/-- The `jti` carried by an encoded token, when it is well formed. -/
def Token.jtiOf : Token → Option String
  | .signed c _ => some c.jti
  | .malformed => none

/-- A sequence of `issue_jwt` calls threading the fresh-id source, one
per `(sub, email, name)` input. -/
def issue_batch (secret : String) (now expires_in : Nat) :
    List (String × String × String) → UuidGen → List Token
  | [], _ => []
  | i :: rest, g =>
    let t := ApiState.issue_jwt secret i.1 i.2.1 i.2.2 now expires_in g
    t.1 :: issue_batch secret now expires_in rest t.2

/-! ### Helper lemmas -/

theorem live_filter_self (l : List (String × Nat)) (now : Nat) (k : String) :
    RedisState.live ⟨l.filter (fun e => !(e.1 == k))⟩ now k = false := by
  simp only [RedisState.live, List.any_eq_false, List.mem_filter]
  rintro e ⟨-, he⟩
  simp only [Bool.not_eq_eq_eq_not, Bool.not_true] at he
  simp [he]

theorem filter_key_idem (l : List (String × Nat)) (k : String) :
    (l.filter (fun e => !(e.1 == k))).filter (fun e => !(e.1 == k)) =
      l.filter (fun e => !(e.1 == k)) :=
  List.filter_eq_self.mpr (fun _ he => (List.mem_filter.mp he).2)

/-! ### C2 -/

/-- C2: a CSRF state stored by `store_oauth_state` is consumed exactly
once: the first `consume_oauth_state` within its TTL returns `true`, and
any later `consume_oauth_state` of the same value returns `false` and
leaves the store unchanged. -/
theorem oauth_state_consume_exactly_once (s s1 s2 : RedisState) (st : String)
    (b : Bool) (t0 ttl t1 t2 : Nat) (_h01 : t0 ≤ t1) (h1 : t1 < t0 + ttl)
    (hstore : RedisClient.store_oauth_state false s t0 st ttl = .ok s1)
    (hfirst : RedisClient.consume_oauth_state false s1 t1 st = .ok (b, s2)) :
    b = true ∧ RedisClient.consume_oauth_state false s2 t2 st = .ok (false, s2) := by
  have hs1 : s1 = s.setEx st t0 ttl := by
    simpa [RedisClient.store_oauth_state] using hstore.symm
  have hlive : s1.live t1 st = true := by
    subst hs1
    simp [RedisState.setEx, RedisState.live, List.any_cons, h1]
  have hdel : s1.del t1 st = (1, ⟨s1.entries.filter (fun e => !(e.1 == st))⟩) := by
    simp [RedisState.del, hlive]
  have hb : b = true ∧ s2 = ⟨s1.entries.filter (fun e => !(e.1 == st))⟩ := by
    have := hfirst
    simp only [RedisClient.consume_oauth_state, hdel] at this
    simp only [Bool.false_eq_true, if_false] at this
    simpa [Prod.ext_iff, eq_comm] using this
  obtain ⟨hb, hs2⟩ := hb
  refine ⟨hb, ?_⟩
  have hlive2 : s2.live t2 st = false := by
    rw [hs2]; exact live_filter_self _ _ _
  have hresult : (⟨s2.entries.filter (fun e => !(e.1 == st))⟩ : RedisState) = s2 := by
    rw [hs2]; simp [filter_key_idem]
  simp [RedisClient.consume_oauth_state, RedisState.del, hlive2, hresult]

/-- C2 witness: a concrete store/consume/consume run. -/
theorem oauth_state_consume_exactly_once_witness :
    true = true ∧
    RedisClient.consume_oauth_state false ⟨[]⟩ 7 "s1" = .ok (false, (⟨[]⟩ : RedisState)) :=
  oauth_state_consume_exactly_once ⟨[]⟩ ⟨[("s1", 300)]⟩ ⟨[]⟩ "s1" true 0 300 5 7
    (by decide) (by decide) (by rfl) (by rfl)

/-! ### C3 -/

/-- C3: for unexpired claims (`now < exp`), once `revoke_jwt` completes,
`is_jwt_revoked` on the claims' `jti` reports `true` immediately, and a
request presenting the token to the `AuthUser` extractor at any time `t`
before the token's natural expiry is rejected with 401
`"Token has been revoked"`. -/
theorem revoked_token_rejected (secret : String) (c : Claims) (s s' : RedisState)
    (now t : Nat) (hexp : now < c.exp) (ht : t < c.exp)
    (hrev : ApiState.revoke_jwt false s now c = .ok s') :
    ApiState.is_jwt_revoked false s' now c.jti = .ok true ∧
    AuthUser.from_request_parts secret false s' t (.bearer (.signed c secret)) =
      .revoked ∧
    (AuthUser.from_request_parts secret false s' t
      (.bearer (.signed c secret))).status = 401 ∧
    (AuthUser.from_request_parts secret false s' t
      (.bearer (.signed c secret))).body = "Token has been revoked" := by
  have hrem : c.exp - now ≠ 0 := by omega
  have hs' : s' = s.setEx (revokedKey c.jti) now (c.exp - now) := by
    simp only [ApiState.revoke_jwt, RedisClient.revoke_jwt, if_neg hrem] at hrev
    simp only [Bool.false_eq_true, if_false] at hrev
    exact (Except.ok.injEq _ _).mp hrev |>.symm
  have hliveAt : ∀ u, u < c.exp → s'.live u (revokedKey c.jti) = true := by
    intro u hu
    subst hs'
    have h2 : u < now + (c.exp - now) := by omega
    simp [RedisState.setEx, RedisState.live, List.any_cons, h2]
  have hchk : ApiState.is_jwt_revoked false s' now c.jti = .ok true := by
    simp [ApiState.is_jwt_revoked, RedisClient.is_jwt_revoked, hliveAt now hexp]
  have hchkt : ApiState.is_jwt_revoked false s' t c.jti = .ok true := by
    simp [ApiState.is_jwt_revoked, RedisClient.is_jwt_revoked, hliveAt t ht]
  have hdec : ApiState.decode_jwt secret (.signed c secret) t = .ok c := by
    have h3 : ¬ c.exp < t - jwtDefaultLeeway := by omega
    simp [ApiState.decode_jwt, jwtDecode, h3]
  refine ⟨hchk, ?_, ?_, ?_⟩ <;>
    simp [AuthUser.from_request_parts, hdec, hchkt, AuthResult.status, AuthResult.body]

/-- C3 witness: a concrete revoke-then-authenticate run. -/
theorem revoked_token_rejected_witness :
    ApiState.is_jwt_revoked false ⟨[("jwt:revoked:j", 2000)]⟩ 1000 "j" = .ok true ∧
    AuthUser.from_request_parts "k" false ⟨[("jwt:revoked:j", 2000)]⟩ 1500
      (.bearer (.signed ⟨"1", "e", "n", 2000, "j"⟩ "k")) = .revoked ∧
    (AuthUser.from_request_parts "k" false ⟨[("jwt:revoked:j", 2000)]⟩ 1500
      (.bearer (.signed ⟨"1", "e", "n", 2000, "j"⟩ "k"))).status = 401 ∧
    (AuthUser.from_request_parts "k" false ⟨[("jwt:revoked:j", 2000)]⟩ 1500
      (.bearer (.signed ⟨"1", "e", "n", 2000, "j"⟩ "k"))).body =
      "Token has been revoked" :=
  revoked_token_rejected "k" ⟨"1", "e", "n", 2000, "j"⟩ ⟨[]⟩
    ⟨[("jwt:revoked:j", 2000)]⟩ 1000 1500 (by decide) (by decide) (by rfl)

/-! ### C4 -/

/-- C4: when the bearer token decodes successfully but the revocation
existence check returns a store error, the extractor rejects with 500
`"Internal server error"`; the request never proceeds with attached
claims, so the error is never treated as "not revoked". -/
theorem revocation_check_error_fails_closed (secret : String) (c : Claims)
    (s : RedisState) (now : Nat)
    (hdec : ApiState.decode_jwt secret (.signed c secret) now = .ok c) :
    AuthUser.from_request_parts secret true s now (.bearer (.signed c secret)) =
      .internalError ∧
    (AuthUser.from_request_parts secret true s now
      (.bearer (.signed c secret))).status = 500 ∧
    ∀ cl, AuthUser.from_request_parts secret true s now
      (.bearer (.signed c secret)) ≠ .ok cl := by
  have hchk : ApiState.is_jwt_revoked true s now c.jti = .error .connection := by
    simp [ApiState.is_jwt_revoked, RedisClient.is_jwt_revoked]
  refine ⟨?_, ?_, ?_⟩ <;>
    simp [AuthUser.from_request_parts, hdec, hchk, AuthResult.status]

/-- C4 witness: a concrete request hitting a failing store. -/
theorem revocation_check_error_fails_closed_witness :
    AuthUser.from_request_parts "k" true ⟨[]⟩ 1000
      (.bearer (.signed ⟨"1", "e", "n", 2000, "j"⟩ "k")) = .internalError ∧
    (AuthUser.from_request_parts "k" true ⟨[]⟩ 1000
      (.bearer (.signed ⟨"1", "e", "n", 2000, "j"⟩ "k"))).status = 500 ∧
    ∀ cl, AuthUser.from_request_parts "k" true ⟨[]⟩ 1000
      (.bearer (.signed ⟨"1", "e", "n", 2000, "j"⟩ "k")) ≠ .ok cl :=
  revocation_check_error_fails_closed "k" ⟨"1", "e", "n", 2000, "j"⟩ ⟨[]⟩ 1000 (by rfl)

/-! ### C5 -/

theorem uuidString_injective {a b : Nat} (h : uuidString a = uuidString b) :
    a = b := by
  have h2 := congrArg String.data h
  simp only [uuidString] at h2
  have h3 := congrArg List.length h2
  simpa using h3

theorem issue_batch_jti_ge (secret : String) (now expires_in : Nat)
    (inputs : List (String × String × String)) (g : UuidGen) :
    ∀ t ∈ issue_batch secret now expires_in inputs g,
      ∃ k, g.counter ≤ k ∧ t.jtiOf = some (uuidString k) := by
  induction inputs generalizing g with
  | nil => intro t ht; simp [issue_batch] at ht
  | cons i rest ih =>
    intro t ht
    simp only [issue_batch, List.mem_cons] at ht
    rcases ht with h | h
    · exact ⟨g.counter, Nat.le_refl _,
        by simp [h, ApiState.issue_jwt, UuidGen.next, Token.jtiOf]⟩
    · obtain ⟨k, hk, hjk⟩ := ih _ t h
      refine ⟨k, ?_, hjk⟩
      simp only [ApiState.issue_jwt, UuidGen.next] at hk
      omega

theorem issue_batch_jti_pairwise (secret : String) (now expires_in : Nat)
    (inputs : List (String × String × String)) (g : UuidGen) :
    (issue_batch secret now expires_in inputs g).Pairwise
      (fun a b => a.jtiOf ≠ b.jtiOf) := by
  induction inputs generalizing g with
  | nil => simp [issue_batch]
  | cons i rest ih =>
    simp only [issue_batch]
    refine List.Pairwise.cons ?_ (ih _)
    intro t ht
    obtain ⟨k, hk, hjk⟩ := issue_batch_jti_ge secret now expires_in rest _ t ht
    simp only [ApiState.issue_jwt, UuidGen.next] at hk
    have hhead :
        (ApiState.issue_jwt secret i.1 i.2.1 i.2.2 now expires_in g).1.jtiOf =
          some (uuidString g.counter) := by
      simp [ApiState.issue_jwt, UuidGen.next, Token.jtiOf]
    rw [hhead, hjk]
    intro heq
    have heq2 : uuidString g.counter = uuidString k := by
      simpa using heq
    have := uuidString_injective heq2
    omega

/-- C5: decoding a freshly issued token succeeds and returns claims whose
`sub`/`email`/`name` match the inputs and whose `exp` lies strictly after
issuance (for a positive configured lifetime, without `u32` overflow);
and the `jti`s of any sequence of issuances are pairwise distinct (the
fresh-id source models `Uuid::new_v4`, whose collision probability is
cryptographically negligible). -/
theorem issue_decode_roundtrip (secret sub email name : String)
    (inputs : List (String × String × String)) (now expires_in : Nat)
    (g : UuidGen) (hpos : 0 < expires_in) (hbound : now + expires_in < 2 ^ 32) :
    (∃ c : Claims,
      ApiState.decode_jwt secret
        (ApiState.issue_jwt secret sub email name now expires_in g).1 now = .ok c ∧
      c.sub = sub ∧ c.email = email ∧ c.name = name ∧ now < c.exp) ∧
    (issue_batch secret now expires_in inputs g).Pairwise
      (fun a b => a.jtiOf ≠ b.jtiOf) := by
  have hexp : (now + expires_in) % u32Mod = now + expires_in := by
    simpa [u32Mod] using Nat.mod_eq_of_lt hbound
  have hnolapse : ¬ ((now + expires_in) % u32Mod < now - jwtDefaultLeeway) := by
    rw [hexp]; omega
  refine ⟨⟨⟨sub, email, name, (now + expires_in) % u32Mod, uuidString g.counter⟩,
      ?_, rfl, rfl, rfl, ?_⟩,
    issue_batch_jti_pairwise secret now expires_in inputs g⟩
  · simp [ApiState.issue_jwt, ApiState.decode_jwt, jwtDecode, UuidGen.next, hnolapse]
  · have hlt : now < now + expires_in := by omega
    simpa [hexp] using hlt

/-- C5 witness: a concrete issuance decoded back, plus a concrete batch. -/
theorem issue_decode_roundtrip_witness :
    (∃ c : Claims,
      ApiState.decode_jwt "k"
        (ApiState.issue_jwt "k" "42" "e@x" "E X" 1000 86400 ⟨0⟩).1 1000 = .ok c ∧
      c.sub = "42" ∧ c.email = "e@x" ∧ c.name = "E X" ∧ 1000 < c.exp) ∧
    (issue_batch "k" 1000 86400 [("1", "a", "A"), ("2", "b", "B")] ⟨0⟩).Pairwise
      (fun a b => a.jtiOf ≠ b.jtiOf) :=
  issue_decode_roundtrip "k" "42" "e@x" "E X" [("1", "a", "A"), ("2", "b", "B")]
    1000 86400 ⟨0⟩ (by decide) (by decide)

/-! ### C6 -/

theorem filter_key_compl (l : List (String × Nat)) (k : String) :
    (l.filter (fun e => !(e.1 == k))).filter (fun e => e.1 == k) = [] := by
  rw [List.filter_eq_nil_iff]
  intro e he
  have h2 := (List.mem_filter.mp he).2
  simp_all

/-- C6: `revoke_jwt` computes the saturating remainder `exp - now`; when
it is zero the store is untouched and the call still succeeds, otherwise
exactly one deny-list entry is written under `jwt:revoked:{jti}` with
deadline `now + remaining` (i.e. TTL `remaining`), all other keys
untouched. -/
theorem revoke_jwt_remaining (c : Claims) (s : RedisState) (now : Nat) :
    (c.exp - now = 0 → ApiState.revoke_jwt false s now c = .ok s) ∧
    (0 < c.exp - now → ∃ s' : RedisState,
      ApiState.revoke_jwt false s now c = .ok s' ∧
      (s'.entries.filter (fun e => e.1 == revokedKey c.jti)).length = 1 ∧
      (revokedKey c.jti, now + (c.exp - now)) ∈ s'.entries ∧
      ∀ e ∈ s'.entries, e.1 ≠ revokedKey c.jti → e ∈ s.entries) := by
  constructor
  · intro h
    simp [ApiState.revoke_jwt, h]
  · intro h
    refine ⟨s.setEx (revokedKey c.jti) now (c.exp - now), ?_, ?_, ?_, ?_⟩
    · have hne : ¬ (c.exp - now = 0) := by omega
      simp [ApiState.revoke_jwt, RedisClient.revoke_jwt, hne]
    · simp [RedisState.setEx, List.filter_cons, filter_key_compl]
    · simp [RedisState.setEx]
    · intro e he hne
      simp only [RedisState.setEx, List.mem_cons] at he
      rcases he with h | h
      · exact absurd (congrArg Prod.fst h) (by simpa using hne)
      · exact (List.mem_filter.mp h).1

/-- C6 witness: revoking already-lapsed claims is a no-op; revoking live
claims writes the single deny-list entry. -/
theorem revoke_jwt_remaining_witness :
    ApiState.revoke_jwt false ⟨[]⟩ 1000 ⟨"1", "e", "n", 900, "j"⟩ =
      .ok (⟨[]⟩ : RedisState) ∧
    (∃ s' : RedisState,
      ApiState.revoke_jwt false ⟨[]⟩ 1000 ⟨"1", "e", "n", 2000, "j"⟩ = .ok s' ∧
      (s'.entries.filter (fun e => e.1 == revokedKey "j")).length = 1 ∧
      (revokedKey "j", 1000 + (2000 - 1000)) ∈ s'.entries ∧
      ∀ e ∈ s'.entries, e.1 ≠ revokedKey "j" →
        e ∈ (⟨[]⟩ : RedisState).entries) :=
  ⟨(revoke_jwt_remaining ⟨"1", "e", "n", 900, "j"⟩ ⟨[]⟩ 1000).1 (by decide),
    (revoke_jwt_remaining ⟨"1", "e", "n", 2000, "j"⟩ ⟨[]⟩ 1000).2 (by decide)⟩

/-! ### C1 -/

/-- C1 counterexample: a token issued at time 1000 with a 1-second
lifetime still decodes successfully at time 1002 — its `exp` has passed,
yet `Validation::default()`'s 60-second leeway accepts it, so the claimed
invalid-token failure does not occur. -/
theorem decode_expired_within_leeway_succeeds :
    1000 + 1 < 1002 ∧
    ApiState.decode_jwt "k" (ApiState.issue_jwt "k" "42" "e" "n" 1000 1 ⟨0⟩).1 1002 =
      .ok ⟨"42", "e", "n", 1001, uuidString 0⟩ :=
  ⟨by decide, by rfl⟩

/-- C1 amended: decoding a token issued by `issue_jwt` fails with
`ExpiredSignature` once `now` exceeds `exp` by more than the 60-second
default validation leeway, and the extractor then rejects it with 401
`"Invalid token"` regardless of the deny-list contents or store health. -/
theorem decode_fails_after_leeway (secret sub email name : String)
    (now issued expires_in : Nat) (g : UuidGen)
    (hbound : issued + expires_in < 2 ^ 32)
    (hlate : issued + expires_in + jwtDefaultLeeway < now) :
    ApiState.decode_jwt secret
      (ApiState.issue_jwt secret sub email name issued expires_in g).1 now =
      .error .expiredSignature ∧
    ∀ (s : RedisState) (rf : Bool),
      AuthUser.from_request_parts secret rf s now
        (.bearer (ApiState.issue_jwt secret sub email name issued expires_in g).1) =
        .invalidToken := by
  have hexp : (issued + expires_in) % u32Mod = issued + expires_in := by
    simpa [u32Mod] using Nat.mod_eq_of_lt hbound
  have hlapse : (issued + expires_in) % u32Mod < now - jwtDefaultLeeway := by
    rw [hexp]
    simp only [jwtDefaultLeeway] at hlate ⊢
    omega
  constructor
  · simp [ApiState.issue_jwt, ApiState.decode_jwt, jwtDecode, UuidGen.next, hlapse]
  · intro s rf
    simp [AuthUser.from_request_parts, ApiState.issue_jwt, ApiState.decode_jwt,
      jwtDecode, UuidGen.next, hlapse]

/-- C1 witness: a token with a 1-second lifetime decoded 100 seconds
later fails, whatever the deny-list holds. -/
theorem decode_fails_after_leeway_witness :
    ApiState.decode_jwt "k" (ApiState.issue_jwt "k" "42" "e" "n" 1000 1 ⟨0⟩).1 1100 =
      .error .expiredSignature ∧
    ∀ (s : RedisState) (rf : Bool),
      AuthUser.from_request_parts "k" rf s 1100
        (.bearer (ApiState.issue_jwt "k" "42" "e" "n" 1000 1 ⟨0⟩).1) =
        .invalidToken :=
  decode_fails_after_leeway "k" "42" "e" "n" 1100 1000 1 ⟨0⟩ (by decide) (by decide)

/-! ### C7 -/

/-- C7 counterexample: a validly signed, unexpired token whose `jti` is
already on the deny-list is NOT accepted by the logout route: the
`AuthUser` extractor checks revocation before `logout_impl` can run, so
the route answers 401 `"Token has been revoked"` instead of revoking and
returning 204. -/
theorem logout_rejects_already_revoked :
    logout "k" false ⟨[("jwt:revoked:j", 2000)]⟩ 1000
      (.bearer (.signed ⟨"1", "e", "n", 2000, "j"⟩ "k")) =
      (.unauthorized "Token has been revoked", ⟨[("jwt:revoked:j", 2000)]⟩) ∧
    (logout "k" false ⟨[("jwt:revoked:j", 2000)]⟩ 1000
      (.bearer (.signed ⟨"1", "e", "n", 2000, "j"⟩ "k"))).1.status = 401 :=
  ⟨by rfl, by rfl⟩

/-- C7 amended: logout requires a valid and unrevoked token.  With a
validly signed, unexpired, unrevoked bearer token it revokes the claims'
`jti` for the remaining lifetime and responds 204; with a valid but
already-revoked one the extractor rejects 401 `"Token has been revoked"`
and the store is left untouched. -/
theorem logout_requires_valid_unrevoked (secret : String) (c : Claims)
    (s : RedisState) (now : Nat) (hexp : now < c.exp) :
    (ApiState.is_jwt_revoked false s now c.jti = .ok false →
      logout secret false s now (.bearer (.signed c secret)) =
        (.noContent, s.setEx (revokedKey c.jti) now (c.exp - now))) ∧
    (ApiState.is_jwt_revoked false s now c.jti = .ok true →
      logout secret false s now (.bearer (.signed c secret)) =
        (.unauthorized "Token has been revoked", s)) := by
  have hdec : ApiState.decode_jwt secret (.signed c secret) now = .ok c := by
    have h2 : ¬ c.exp < now - jwtDefaultLeeway := by omega
    simp [ApiState.decode_jwt, jwtDecode, h2]
  have hne : ¬ (c.exp - now = 0) := by omega
  constructor
  · intro hch
    simp [logout, AuthUser.from_request_parts, hdec, hch, ApiState.revoke_jwt,
      RedisClient.revoke_jwt, hne]
  · intro hch
    simp [logout, AuthUser.from_request_parts, hdec, hch, AuthResult.body]

/-- C7 witness: both logout outcomes at concrete inputs. -/
theorem logout_requires_valid_unrevoked_witness :
    logout "k" false ⟨[]⟩ 1000 (.bearer (.signed ⟨"1", "e", "n", 2000, "j"⟩ "k")) =
      (.noContent, RedisState.setEx ⟨[]⟩ (revokedKey "j") 1000 (2000 - 1000)) ∧
    logout "k" false ⟨[(revokedKey "j", 2000)]⟩ 1000
      (.bearer (.signed ⟨"1", "e", "n", 2000, "j"⟩ "k")) =
      (.unauthorized "Token has been revoked", ⟨[(revokedKey "j", 2000)]⟩) :=
  ⟨(logout_requires_valid_unrevoked "k" ⟨"1", "e", "n", 2000, "j"⟩ ⟨[]⟩ 1000
      (by decide)).1 (by rfl),
    (logout_requires_valid_unrevoked "k" ⟨"1", "e", "n", 2000, "j"⟩
      ⟨[(revokedKey "j", 2000)]⟩ 1000 (by decide)).2 (by rfl)⟩

/-! ### C8 -/

/-- C8: the assembled route table registers no `/auth/logout` route at
all — for any method — although the auth login and callback routes are
present; the `logout` handler in the source is never mounted, so a
`POST /auth/logout` request cannot reach it (axum answers 404, not
204/401). -/
theorem no_logout_route :
    ("POST", "/auth/logout") ∉ gatewayRoutes ∧
    gatewayRoutes.filter (fun r => r.2 == "/auth/logout") = [] ∧
    ("GET", "/auth/") ∈ gatewayRoutes ∧
    ("GET", "/auth/callback") ∈ gatewayRoutes :=
  ⟨by decide, by rfl, by decide, by decide⟩

/-! ### C9 -/

theorem uuidV4ofBits_version (r : Nat) : uuidV4ofBits r / 2 ^ 76 % 16 = 4 := by
  simp only [uuidV4ofBits, uuidSetVersion, uuidSetVariant]
  omega

/-- C9 counterexample: the CSRF state value is a `Uuid::new_v4`, whose
version nibble is pinned to `4`: over the full 2^128-value random input
space the generator reaches strictly fewer than 2^128 distinct values
(it has only 122 free bits), refuting "at least 128 bits of entropy". -/
theorem uuid_v4_under_128_bits :
    (Finset.image uuidV4fin Finset.univ).card < 2 ^ 128 := by
  have hpos : (0 : Nat) < 2 ^ 128 := by positivity
  have hsub : Finset.image uuidV4fin Finset.univ ⊆
      Finset.univ.erase (⟨0, hpos⟩ : Fin (2 ^ 128)) := by
    intro x hx
    obtain ⟨r, -, hr⟩ := Finset.mem_image.mp hx
    refine Finset.mem_erase.mpr ⟨?_, Finset.mem_univ x⟩
    intro h0
    have hv : (x : Fin (2 ^ 128)).val / 2 ^ 76 % 16 = 4 := by
      rw [← hr]
      exact uuidV4ofBits_version r.val
    rw [h0] at hv
    norm_num at hv
  have hcard := Finset.card_le_card hsub
  have herase : (Finset.univ.erase (⟨0, hpos⟩ : Fin (2 ^ 128))).card =
      2 ^ 128 - 1 := by
    rw [Finset.card_erase_of_mem (Finset.mem_univ _), Finset.card_univ,
      Fintype.card_fin]
  rw [herase] at hcard
  omega

/-- C9 amended: the CSRF state generated at login-initiation is a random
opaque `Uuid::new_v4` string carrying fewer than 128 bits of entropy
(122 free bits), stored in the key-value store under its own value as the
key with the fixed configured TTL, whose default is 300 seconds; the same
value is embedded in the provider redirect. -/
theorem login_stores_state_under_own_value (s : RedisState) (now : Nat)
    (g : UuidGen) :
    RedisConfig.default.oauth_state_ttl = 300 ∧
    login_impl false s now RedisConfig.default.oauth_state_ttl g =
      ((.redirect (uuidString g.counter),
        s.setEx (uuidString g.counter) now 300), ⟨g.counter + 1⟩) ∧
    (∀ t, ((login_impl false s now RedisConfig.default.oauth_state_ttl g).1.2).live
        t (uuidString g.counter) = decide (t < now + 300)) ∧
    (Finset.image uuidV4fin Finset.univ).card < 2 ^ 128 := by
  have hpos : (0 : Nat) < 2 ^ 128 := by positivity
  have hsub : Finset.image uuidV4fin Finset.univ ⊆
      Finset.univ.erase (⟨0, hpos⟩ : Fin (2 ^ 128)) := by
    intro x hx
    obtain ⟨r, -, hr⟩ := Finset.mem_image.mp hx
    refine Finset.mem_erase.mpr ⟨?_, Finset.mem_univ x⟩
    intro h0
    have hv : (x : Fin (2 ^ 128)).val / 2 ^ 76 % 16 = 4 := by
      rw [← hr]
      exact uuidV4ofBits_version r.val
    rw [h0] at hv
    norm_num at hv
  have hcard := Finset.card_le_card hsub
  have herase : (Finset.univ.erase (⟨0, hpos⟩ : Fin (2 ^ 128))).card =
      2 ^ 128 - 1 := by
    rw [Finset.card_erase_of_mem (Finset.mem_univ _), Finset.card_univ,
      Fintype.card_fin]
  rw [herase] at hcard
  refine ⟨rfl, ?_, ?_, by omega⟩
  · simp [login_impl, UuidGen.next, RedisClient.store_oauth_state,
      RedisConfig.default]
  · intro t
    simp only [login_impl, UuidGen.next, RedisClient.store_oauth_state,
      RedisConfig.default, Bool.false_eq_true, if_false]
    have htail := live_filter_self s.entries t (uuidString g.counter)
    simp only [RedisState.setEx, RedisState.live, List.any_cons] at htail ⊢
    simp [htail]

/-! ### C10 -/

/-- C10: `callback_impl` consumes the CSRF state before the provider
exchange and the upsert: for any outcome of the external steps of a
first callback whose state was live (including every failure answered
with 500), the state key is gone from the store the call leaves behind,
and a second callback presenting the same state value is answered 400
`"Invalid state parameter"` without attempting another provider
exchange. -/
theorem callback_consumes_state_before_exchange (secret : String)
    (s : RedisState) (t1 t2 : Nat) (q : OAuthCallbackQuery)
    (o1 o2 : CallbackOracle) (e1 e2 : Nat) (g1 g2 : UuidGen)
    (hlive : s.live t1 q.state = true) :
    ((callback secret false s t1 q o1 e1 g1).1.redis).live t2 q.state = false ∧
    (callback secret false (callback secret false s t1 q o1 e1 g1).1.redis
        t2 q o2 e2 g2).1.response = .badRequest "Invalid state parameter" ∧
    (callback secret false (callback secret false s t1 q o1 e1 g1).1.redis
        t2 q o2 e2 g2).1.exchangeAttempted = false := by
  obtain ⟨te, ui, up⟩ := o1
  have hredis : (callback secret false s t1 q ⟨te, ui, up⟩ e1 g1).1.redis =
      ⟨s.entries.filter (fun e => !(e.1 == q.state))⟩ := by
    cases te <;> cases ui <;> cases up <;>
      simp [callback, ApiState.consume_oauth_state,
        RedisClient.consume_oauth_state, RedisState.del, hlive]
  rw [hredis]
  have hlive2 := live_filter_self s.entries t2 q.state
  have hlive2' : RedisState.live
      ⟨s.entries.filter (fun e => !(e.1 == q.state))⟩ t2 q.state = false :=
    hlive2
  refine ⟨hlive2, ?_, ?_⟩ <;>
    simp [callback, ApiState.consume_oauth_state,
      RedisClient.consume_oauth_state, RedisState.del, hlive2']

/-- C10 witness: a concrete pair of callbacks for the same state value,
the first of which fails at the provider exchange. -/
theorem callback_consumes_state_before_exchange_witness :
    ((callback "k" false ⟨[("st", 100)]⟩ 5 ⟨"c", "st"⟩
        ⟨none, none, none⟩ 60 ⟨0⟩).1.redis).live 6 "st" = false ∧
    (callback "k" false (callback "k" false ⟨[("st", 100)]⟩ 5 ⟨"c", "st"⟩
        ⟨none, none, none⟩ 60 ⟨0⟩).1.redis 6 ⟨"c", "st"⟩
        ⟨some "at", some ("s", "e", "n"), some "7"⟩ 60 ⟨1⟩).1.response =
      .badRequest "Invalid state parameter" ∧
    (callback "k" false (callback "k" false ⟨[("st", 100)]⟩ 5 ⟨"c", "st"⟩
        ⟨none, none, none⟩ 60 ⟨0⟩).1.redis 6 ⟨"c", "st"⟩
        ⟨some "at", some ("s", "e", "n"), some "7"⟩ 60 ⟨1⟩).1.exchangeAttempted =
      false :=
  callback_consumes_state_before_exchange "k" ⟨[("st", 100)]⟩ 5 6 ⟨"c", "st"⟩
    ⟨none, none, none⟩ ⟨some "at", some ("s", "e", "n"), some "7"⟩ 60 60 ⟨0⟩ ⟨1⟩
    (by rfl)

end Nexus
